import Mathlib

/-!
# Verification of core components of the `vrp` repository

This file gives a shallow embedding of the parts of the `vrp` solver that the
specification's claims are about, and proves (or refutes) each claim against it:

* the time constraint module (`src/src/construction/constraints/timing.rs`):
  `TimingConstraintModule::accept_route_state`,
  `TimeHardActivityConstraint::evaluate_activity`,
  `TimeSoftActivityConstraint::estimate_activity`;
* the population archive (`src/core/src/refinement/mod.rs`): `Population::add`;
* the cost-variation termination criterion
  (`src/vrp-core/src/solver/termination/cost_variation.rs`);
* the Solomon solution writer (`src/src/streams/output/text/solomon.rs`).

Numeric model: the source computes with `f64`.  All claims under scrutiny are
about control flow and exact arithmetic identities (no rounding is at issue),
so `f64` values are modeled as elements of an arbitrary linear ordered
commutative ring `R`; concrete witnesses instantiate `R := ℤ`.  The coefficient
of variation (which divides and takes a square root) is modeled over `ℝ`.

Panics are modeled by `Option`/result types: `none` means the computation
aborted.  Rust evaluates function-call arguments eagerly, which matters for
`opt.unwrap_or(panic!(..))` in `accept_route_state`: the `panic!` argument is
evaluated before `unwrap_or` runs, so the call aborts regardless of `opt`.
The embedding keeps both this actual semantics and the evidently intended lazy
(`unwrap_or_else`) reading, sharing a single function body.
-/

namespace Vrp

/-! ## Domain data used by the timing module (models/common, models/solution) -/

/-- `TimeWindow { start, end }`; `end` is a Lean keyword, hence `endt`. -/
structure TimeWindow (R : Type) where
  start : R
  endt : R
deriving DecidableEq

/-- An activity's chosen place: location id, service duration, time window. -/
structure Place (R : Type) where
  location : Nat
  duration : R
  time : TimeWindow R
deriving DecidableEq

/-- `Schedule { arrival, departure }`, mutated by the timing module. -/
structure Schedule (R : Type) where
  arrival : R
  departure : R
deriving DecidableEq

/-- One tour activity.  `has_job` models `activity.job.is_some()`; the timing
module never looks at the job itself, only at whether one is present. -/
structure Activity (R : Type) where
  place : Place R
  schedule : Schedule R
  has_job : Bool
deriving DecidableEq

/-- `actor.detail`: optional start/end locations and the shift time window. -/
structure Detail (R : Type) where
  start : Option Nat
  endt : Option Nat
  time : TimeWindow R
deriving DecidableEq

/-- The slice of an `Actor` read by the timing module: the vehicle profile,
the detail, and `vehicle.costs.per_waiting_time` (used by the soft constraint). -/
structure Actor (R : Type) where
  profile : Nat
  detail : Detail R
  per_waiting_time : R
deriving DecidableEq

/-- The `TransportCost` and `ActivityCost` trait objects held by the module,
specialised to the route's fixed actor:
`tdur profile from to departure` is `transport.duration(..)`,
`tcost from to departure` is `transport.cost(vehicle, driver, ..)`,
`adur place arrival` is `activity.duration(vehicle, driver, act, arrival)` and
`acost place arrival` is `activity.cost(vehicle, driver, act, arrival)`.
In the repository (`vrp-core/src/models/problem/costs.rs`) the activity cost
functions read only the activity's immutable place (window, duration), never
its mutable schedule, which is why they take a `Place`. -/
structure Services (R : Type) where
  tdur : Nat → Nat → Nat → R → R
  tcost : Nat → Nat → R → R
  adur : Place R → R → R
  acost : Place R → R → R

/-! ## `Option::unwrap_or` under eager and lazy argument evaluation -/

/-- Rust `opt.unwrap_or(default)` where the `default` expression may itself
panic (`none` models a panicking default such as `panic!(OP_START_MSG)`).
Rust evaluates call arguments eagerly, before `unwrap_or` runs, so a panic in
the default aborts the whole call regardless of `opt`.  This is the actual
semantics of `timing.rs` lines 32 and 55. -/
def unwrap_or_eager {α : Type} (opt : Option α) (dflt : Option α) : Option α :=
  match dflt with
  | none => none
  | some d => some (opt.getD d)

/-- The same call under the lazy (`unwrap_or_else`-style) reading the
surrounding code evidently intends: the default is evaluated only when the
option is empty, so the panic fires only for a missing shift start. -/
def unwrap_or_lazy {α : Type} (opt : Option α) (dflt : Option α) : Option α :=
  match opt with
  | some x => some x
  | none => dflt

section TimingModule

variable {R : Type} [LinearOrderedCommRing R]

/-! ## `TimingConstraintModule::accept_route_state` (timing.rs lines 29-76) -/

/-- The forward schedule update (timing.rs lines 36-50): the fold over
`tour.all_activities_mut().skip(1)` carrying `(location, departure)`.
For each activity `a`:
`a.schedule.arrival = dep + transport.duration(profile, loc, a.place.location, dep)` and
`a.schedule.departure = a.schedule.arrival.max(a.place.time.start)
                        + activity.duration(.., a, a.schedule.arrival)`. -/
def schedule_pass (sv : Services R) (profile : Nat) :
    Nat → R → List (Activity R) → List (Activity R)
  | _, _, [] => []
  | loc, dep, a :: rest =>
    let arr := dep + sv.tdur profile loc a.place.location dep
    let a2 : Activity R :=
      { a with schedule := { arrival := arr,
                             departure := max arr a.place.time.start + sv.adur a.place arr } }
    a2 :: schedule_pass sv profile a.place.location a2.schedule.departure rest

/-- The backward pass (timing.rs lines 52-75): the fold over
`tour.all_activities().rev()` carrying `(end_time, prev_loc, waiting)`.
Activities without a job are skipped (the accumulator is propagated).  The
returned list is aligned with the tour: entry `i` is
`some (LATEST_ARRIVAL, WAITING)` when activity `i` carries a job and `none`
otherwise (the state store holds entries only for job activities). -/
def latest_pass (sv : Services R) (profile : Nat) :
    List (Activity R) → R × Nat × R → List (Option (R × R)) × (R × Nat × R)
  | [], acc => ([], acc)
  | a :: rest, acc =>
    let r := latest_pass sv profile rest acc
    if a.has_job then
      let end_time := r.2.1
      let prev_loc := r.2.2.1
      let waiting := r.2.2.2
      let potential_latest := end_time - sv.tdur profile a.place.location prev_loc end_time
        - sv.adur a.place end_time
      let latest_arrival_time := min a.place.time.endt potential_latest
      let future_waiting := waiting + max (a.place.time.start - a.schedule.arrival) 0
      (some (latest_arrival_time, future_waiting) :: r.1,
        (latest_arrival_time, a.place.location, future_waiting))
    else
      (none :: r.1, r.2)

/-- `TimingConstraintModule::accept_route_state` (timing.rs lines 29-76),
parameterised by the semantics given to `Option::unwrap_or` so that the eager
(actual Rust) and lazy (evidently intended) readings share one body.
The result is `none` when the function panics, otherwise the rescheduled tour
together with the per-activity `(LATEST_ARRIVAL, WAITING)` state entries. -/
def accept_route_state_with
    (unwrap : (α : Type) → Option α → Option α → Option α)
    (sv : Services R) (actor : Actor R) (tour : List (Activity R)) :
    Option (List (Activity R) × List (Option (R × R))) := do
  -- line 32: `let start = route.tour.start().unwrap_or(panic!(OP_START_MSG));`
  let start ← unwrap _ tour.head? none
  -- lines 36-50: update each activity schedule
  let tour2 := start ::
    schedule_pass sv actor.profile start.place.location start.schedule.departure tour.tail
  -- lines 53-57: `actor.detail.end.unwrap_or(actor.detail.start.unwrap_or(panic!(..)))`
  let end_loc ← unwrap _ actor.detail.endt (unwrap _ actor.detail.start none)
  -- lines 58-75: update latest arrival and waiting states
  let states := (latest_pass sv actor.profile tour2 (actor.detail.time.endt, end_loc, 0)).1
  some (tour2, states)

/-- The function as compiled: `unwrap_or` receives its (diverging) `panic!`
argument eagerly, so the very first statement aborts. -/
def accept_route_state (sv : Services R) (actor : Actor R) (tour : List (Activity R)) :
    Option (List (Activity R) × List (Option (R × R))) :=
  accept_route_state_with (fun _ => unwrap_or_eager) sv actor tour

/-- The function under the intended lazy reading of the two `unwrap_or` calls:
it aborts only when the tour has no start activity, or when the actor detail
has neither an end nor a start location (the unimplemented optional start). -/
def accept_route_state_lazy (sv : Services R) (actor : Actor R) (tour : List (Activity R)) :
    Option (List (Activity R) × List (Option (R × R))) :=
  accept_route_state_with (fun _ => unwrap_or_lazy) sv actor tour

/-! ## `TimeHardActivityConstraint::evaluate_activity` (timing.rs lines 167-256) -/

/-- `ActivityConstraintViolation { code, stopped }`. -/
structure ActivityConstraintViolation where
  code : Int
  stopped : Bool
deriving DecidableEq

/-- Lines 203-255 of timing.rs, shared by the closed-vrp (`next = Some`) and
open-vrp (`next = None`) branches after `next_act_location` and
`latest_arr_time_at_next_act` have been selected.  The `next` argument is only
matched on, modeling the `if next.is_some() { return self.success(); }` early
return at line 244.  Note the source's helper names: `fail()` builds
`stopped = true` and `stop()` builds `stopped = false`. -/
def evaluate_activity_tail (sv : Services R) (actor : Actor R) (code : Int)
    (prev target : Activity R) (next : Option (Activity R)) (next_act_location : Nat)
    (latest_arr_time_at_next_act : R) : Option ActivityConstraintViolation :=
  let departure := prev.schedule.departure
  let profile := actor.profile
  let arr_time_at_next := departure +
    sv.tdur profile prev.place.location next_act_location departure
  -- line 206: `if arr_time_at_next > latest_arr_time_at_next_act { fail }`
  if latest_arr_time_at_next_act < arr_time_at_next then some ⟨code, true⟩
  -- line 209: `if target.place.time.start > latest_arr_time_at_next_act { stop }`
  else if latest_arr_time_at_next_act < target.place.time.start then some ⟨code, false⟩
  else
    let arr_time_at_target_act := departure +
      sv.tdur profile prev.place.location target.place.location departure
    let end_time_at_new_act := max arr_time_at_target_act target.place.time.start +
      sv.adur target.place arr_time_at_target_act
    let latest_arr_time_at_new_act := min target.place.time.endt
      (latest_arr_time_at_next_act -
        sv.tdur profile target.place.location next_act_location latest_arr_time_at_next_act +
        sv.adur target.place arr_time_at_target_act)
    -- line 240: `if arr_time_at_target_act > latest_arr_time_at_new_act { stop }`
    if latest_arr_time_at_new_act < arr_time_at_target_act then some ⟨code, false⟩
    else
      match next with
      -- line 244: `if next.is_some() { return self.success(); }`
      | some _ => none
      | none =>
        let arr_time_at_next_act := end_time_at_new_act +
          sv.tdur profile target.place.location next_act_location end_time_at_new_act
        -- line 251: `if arr_time_at_next_act > latest_arr_time_at_next_act { stop }`
        if latest_arr_time_at_next_act < arr_time_at_next_act then some ⟨code, false⟩
        else none

/-- `TimeHardActivityConstraint::evaluate_activity` (timing.rs lines 167-256).
`latest_state` models `state.get_activity_state(LATEST_ARRIVAL_KEY, next)`;
`none` means no stored state, in which case the code falls back to
`next.place.time.end`.  The result is `none` on success (`self.success()`).
The source's single entry check (lines 183-188, whose third disjunct is
`next.map_or(false, |next| actor.detail.time.end < next.place.time.start)`)
is expanded per `next` branch here; the branch on `next` at lines 192-201
selects the reference location and its latest-arrival bound. -/
def evaluate_activity (sv : Services R) (actor : Actor R) (code : Int)
    (latest_state : Option R) (prev target : Activity R) (next : Option (Activity R)) :
    Option ActivityConstraintViolation :=
  match next with
  | some n =>
    if actor.detail.time.endt < prev.place.time.start ∨
        actor.detail.time.endt < target.place.time.start ∨
        actor.detail.time.endt < n.place.time.start then
      some ⟨code, true⟩
    -- lines 193-197 (closed vrp); the inner shift-end re-check is kept verbatim
    else if actor.detail.time.endt < n.place.time.start then some ⟨code, true⟩
    else evaluate_activity_tail sv actor code prev target (some n) n.place.location
      (latest_state.getD n.place.time.endt)
  | none =>
    if actor.detail.time.endt < prev.place.time.start ∨
        actor.detail.time.endt < target.place.time.start then
      some ⟨code, true⟩
    else
      -- lines 199-201 (open vrp)
      evaluate_activity_tail sv actor code prev target none target.place.location
        (min target.place.time.endt actor.detail.time.endt)

/-! ## `TimeSoftActivityConstraint::estimate_activity` (timing.rs lines 259-329) -/

/-- `TimeSoftActivityConstraint::analyze_route_leg` (timing.rs lines 265-288):
returns `(transport_cost, activity_cost, departure)` for the leg from `start`
to `finish` (source parameter name `end`) departing at `time`. -/
def analyze_route_leg (sv : Services R) (actor : Actor R) (start finish : Activity R)
    (time : R) : R × R × R :=
  let arrival := time +
    sv.tdur actor.profile start.place.location finish.place.location time
  (sv.tcost start.place.location finish.place.location time,
   sv.acost finish.place arrival,
   max arrival finish.place.time.start + sv.adur finish.place arrival)

/-- `TimeSoftActivityConstraint::estimate_activity` (timing.rs lines 291-328).
`has_jobs` models `route.tour.has_jobs()`; `waiting_state` models
`state.get_activity_state(WAITING_KEY, next)` (defaulting to `0`). -/
def estimate_activity (sv : Services R) (actor : Actor R) (has_jobs : Bool)
    (waiting_state : Option R) (prev target : Activity R) (next : Option (Activity R)) : R :=
  let left := analyze_route_leg sv actor prev target prev.schedule.departure
  let right := match next with
    | some n => analyze_route_leg sv actor target n left.2.2
    | none => analyze_route_leg sv actor target target left.2.2
  let new_costs := left.1 + right.1 + (left.2.1 + right.2.1)
  -- line 312: `if !route.tour.has_jobs() || next.is_none() { return new_costs; }`
  match next with
  | none => new_costs
  | some n =>
    if has_jobs = false then new_costs
    else
      let waiting_time := waiting_state.getD 0
      let old := analyze_route_leg sv actor prev n prev.schedule.departure
      let waiting_cost := min waiting_time (max 0 (right.2.2 - old.2.2)) *
        actor.per_waiting_time
      new_costs - (old.1 + (old.2.1 + waiting_cost))

/-- The marginal-cost formula exactly as the specification words it (spec §4.3):
`(transport_cost(prev→target) + transport_cost(target→next) + activity_cost(target)
− transport_cost(prev→next)) − waiting_saved × per_waiting_cost`, with
`waiting_saved` the saved waiting the code computes,
`min(WAITING(next), max(0, new departure − old departure))`.  Stated from the
spec's words to be compared with `estimate_activity` above. -/
def spec_marginal_cost (sv : Services R) (actor : Actor R) (waiting_state : Option R)
    (prev target next : Activity R) : R :=
  let left := analyze_route_leg sv actor prev target prev.schedule.departure
  let right := analyze_route_leg sv actor target next left.2.2
  let old := analyze_route_leg sv actor prev next prev.schedule.departure
  let waiting_saved := min (waiting_state.getD 0) (max 0 (right.2.2 - old.2.2))
  (left.1 + right.1 + left.2.1 - old.1) - waiting_saved * actor.per_waiting_time

/-- Check (d) exactly as the specification words it (spec §4.3): the service
completion time at `target` (`max(arrival, tw.start)` plus service duration)
plus the travel duration from `target` to `next` does not exceed
`LATEST_ARRIVAL(next)` (falling back to `next`'s window end when no state is
stored).  Stated from the spec's words to be compared with the checks
`evaluate_activity` actually performs. -/
def spec_check_d (sv : Services R) (actor : Actor R) (latest_state : Option R)
    (prev target next : Activity R) : Prop :=
  let departure := prev.schedule.departure
  let arr := departure +
    sv.tdur actor.profile prev.place.location target.place.location departure
  let completion := max arr target.place.time.start + sv.adur target.place arr
  completion +
      sv.tdur actor.profile target.place.location next.place.location completion ≤
    latest_state.getD next.place.time.endt

instance (sv : Services R) (actor : Actor R) (latest_state : Option R)
    (prev target next : Activity R) :
    Decidable (spec_check_d sv actor latest_state prev target next) := by
  unfold spec_check_d
  infer_instance

end TimingModule

/-! ## `Population` (core/src/refinement/mod.rs lines 24-124) -/

section PopulationModule

variable {R : Type} [LinearOrderedCommRing R]

/-- The slice of an `Individuum = (InsertionContext, ObjectiveCost, usize)` that
`Population::add` reads: the total cost, `solution.unassigned.len()` and
`solution.routes.len()`.  `clone_individuum` deep-copies the insertion context,
which in this value model is the identity. -/
structure Individuum (R : Type) where
  cost : R
  unassigned : Nat
  routes : Nat
deriving DecidableEq

/-- `compare_floats` (a utility not under `src/`), modeled from the spec as the
total-order comparison on exact values (its uses here never see a NaN). -/
def cmp_val (a b : R) : Ordering :=
  if a < b then .lt else if b < a then .gt else .eq

/-- `usize::cmp`. -/
def cmp_nat (a b : Nat) : Ordering :=
  if a < b then .lt else if b < a then .gt else .eq

/-- The `less_costs` comparator: `compare_floats(a_cost.total(), b_cost.total())`. -/
def cmp_costs (a b : Individuum R) : Ordering := cmp_val a.cost b.cost

/-- The `less_unassigned` comparator: unassigned count, ties broken by cost. -/
def cmp_unassigned (a b : Individuum R) : Ordering :=
  match cmp_nat a.unassigned b.unassigned with
  | .eq => cmp_val a.cost b.cost
  | v => v

/-- The `less_routes` comparator: route count, ties broken by cost. -/
def cmp_routes (a b : Individuum R) : Ordering :=
  match cmp_nat a.routes b.routes with
  | .eq => cmp_val a.cost b.cost
  | v => v

/-- "`a` sorts no later than `b`" for a comparator: the order `sort_by`
establishes between adjacent elements. -/
def cmp_le {α : Type} (cmp : α → α → Ordering) (a b : α) : Prop :=
  cmp a b ≠ Ordering.gt

instance {α : Type} (cmp : α → α → Ordering) : DecidableRel (cmp_le cmp) :=
  fun a b => by unfold cmp_le; infer_instance

/-- Rust `Vec::sort_by(compare)`, modeled by insertion sort over `cmp_le cmp`
(the claims under test depend only on sortedness, length and membership, which
any comparison sort shares). -/
def sort_by {α : Type} (cmp : α → α → Ordering) (l : List α) : List α :=
  List.insertionSort (cmp_le cmp) l

/-- `Population::add_to_queue` (mod.rs lines 111-119):
`individuums.truncate(batch_size - 1); individuums.push(individuum);
individuums.sort_by(compare)`. -/
def add_to_queue {α : Type} (cmp : α → α → Ordering) (individuum : α)
    (batch_size : Nat) (individuums : List α) : List α :=
  sort_by cmp (individuums.take (batch_size - 1) ++ [individuum])

/-- `Population` (mod.rs lines 24-31). -/
structure Population (R : Type) where
  less_costs : List (Individuum R)
  less_unassigned : List (Individuum R)
  less_routes : List (Individuum R)
  minimize_routes : Bool
  batch_size : Nat

/-- `Population::new` (mod.rs lines 40-43); its `assert!(batch_size > 1)` is the
`k ≥ 2` precondition of the claims. -/
def Population.new (minimize_routes : Bool) (batch_size : Nat) : Population R :=
  ⟨[], [], [], minimize_routes, batch_size⟩

/-- `Population::add` (mod.rs lines 76-109). -/
def Population.add (p : Population R) (individuum : Individuum R) : Population R :=
  { p with
    less_costs := add_to_queue cmp_costs individuum
      (if p.minimize_routes then 2 else p.batch_size) p.less_costs
    less_unassigned := add_to_queue cmp_unassigned individuum 1 p.less_unassigned
    less_routes := add_to_queue cmp_routes individuum
      (if p.minimize_routes then p.batch_size else 2) p.less_routes }

/-- `Population::size` (mod.rs lines 71-73). -/
def Population.size (p : Population R) : Nat :=
  p.less_costs.length + p.less_unassigned.length + p.less_routes.length

/-- The axis invariant the claim states for a population built with
`minimize_routes` and batch size `k`: per-axis bounds (the capacities of
`less_costs` and `less_routes` swap with `minimize_routes`), sortedness by
each axis comparator, at most `k` per axis, and total size at most `3k`. -/
def population_invariant (minimize_routes : Bool) (k : Nat) (p : Population R) : Prop :=
  p.less_costs.length ≤ (if minimize_routes then 2 else k) ∧
  p.less_routes.length ≤ (if minimize_routes then k else 2) ∧
  List.Sorted (cmp_le cmp_costs) p.less_costs ∧
  List.Sorted (cmp_le cmp_unassigned) p.less_unassigned ∧
  List.Sorted (cmp_le cmp_routes) p.less_routes ∧
  p.less_costs.length ≤ k ∧ p.less_unassigned.length ≤ k ∧ p.less_routes.length ≤ k ∧
  p.size ≤ 3 * k

end PopulationModule

/-! ## `CostVariation` termination (vrp-core/src/solver/termination/cost_variation.rs) -/

/-- Modelled from the spec: `get_cv` (`vrp-core/src/utils`, not under `src/`)
computes the coefficient of variation of a sample, the standard deviation
(square root of the population variance) divided by the mean. -/
noncomputable def get_cv (xs : List ℝ) : ℝ :=
  let mean := xs.sum / (xs.length : ℝ)
  let variance := (xs.map (fun x => (x - mean) ^ 2)).sum / (xs.length : ℝ)
  Real.sqrt variance / mean

/-- `CostVariation { sample, threshold }` (the `key` field only names the state
entry, which the model below stores directly). -/
structure CostVariation where
  sample : Nat
  threshold : ℝ

/-- The slice of `RefinementContext` read by `CostVariation::is_termination`:
the generation counter, the `"coeff_var"` state entry (the ring buffer), and
`problem.objective.fitness(best)` for the population's best individual when one
exists. -/
structure RefinementCtx where
  generation : Nat
  coeff_var : Option (List ℝ)
  best_fitness : Option ℝ

open Classical in
/-- `CostVariation::update_and_check` (cost_variation.rs lines 23-34): fetch or
create the ring buffer (`vec![0.; sample]`), write the cost at index
`generation % sample`, and return
`generation >= sample - 1 && get_cv(costs) < threshold` together with the
updated buffer.  (For `sample = 0` the Rust code would panic on `% 0`; the
claims assume `sample > 0`.)  The comparison of real numbers is classically
decidable (`Classical.propDecidable`), mirroring the machine comparison. -/
noncomputable def update_and_check (cv : CostVariation) (ctx : RefinementCtx) (cost : ℝ) :
    Bool × List ℝ :=
  let costs := (ctx.coeff_var.getD (List.replicate cv.sample 0)).set
    (ctx.generation % cv.sample) cost
  (decide (cv.sample - 1 ≤ ctx.generation) && decide (get_cv costs < cv.threshold), costs)

/-- `CostVariation::is_termination` (cost_variation.rs lines 41-50): when the
population has a best individual, run `update_and_check` on its fitness;
otherwise return `false` and leave the state untouched. -/
noncomputable def is_termination (cv : CostVariation) (ctx : RefinementCtx) :
    Bool × RefinementCtx :=
  match ctx.best_fitness with
  | some cost =>
    let r := update_and_check cv ctx cost
    (r.1, { ctx with coeff_var := some r.2 })
  | none => (false, ctx)

/-! ## `write_solomon_solution` (src/src/streams/output/text/solomon.rs) -/

/-- A job as the Solomon writer sees it: its id dimension (`get_id()`); the
`Single`/`Multi` distinction only selects which `dimens` map the id is read
from. -/
structure SolomonJob where
  id : String
deriving DecidableEq

/-- A tour activity as the writer sees it: its owning job, if any. -/
structure SolomonActivity where
  job : Option SolomonJob
deriving DecidableEq

/-- A route as the writer sees it: its tour's activities in order. -/
structure SolomonRoute where
  tour : List SolomonActivity
deriving DecidableEq

/-- A `Solution` as the writer sees it: routes plus the unassigned map
(job, reason code). -/
structure SolomonSolution where
  routes : List SolomonRoute
  unassigned : List (SolomonJob × Int)
deriving DecidableEq

/-- The line written for one route (solomon.rs lines 16-33): job activities in
tour order, ids joined by single spaces, with the 1-based route index. -/
def solomon_route_line (i : Nat) (r : SolomonRoute) : String :=
  let customers := String.intercalate " "
    (((r.tour.filter (fun a => a.job.isSome)).filterMap (fun a => a.job)).map
      (fun job => job.id))
  "Route " ++ toString i ++ ": " ++ customers ++ "\n"

/-- `write_solomon_solution` (solomon.rs lines 9-37).  The `BufWriter` is the
list of strings written so far; the model's writer itself cannot fail (I/O
errors are environmental).  The unassigned check precedes every write. -/
def write_solomon_solution (solution : SolomonSolution) (writer : List String) :
    Except String Unit × List String :=
  if solution.unassigned.isEmpty = false then
    (Except.error "Cannot write solomon solution with unassigned jobs.", writer)
  else
    (Except.ok (),
      writer ++ ["Solution\n"] ++
        (solution.routes.zip (List.range' 1 solution.routes.length)).map
          (fun ri => solomon_route_line ri.2 ri.1))

/-! ## Concrete instances used by counterexamples and witnesses (over `ℤ`) -/

/-- One travel unit everywhere; service time is the place's duration. -/
def c1_services : Services ℤ :=
  ⟨fun _ _ _ _ => 1, fun _ _ _ => 0, fun p _ => p.duration, fun _ _ => 0⟩

/-- An actor whose detail has a start location (end absent): the case the claim
says must not abort. -/
def c1_actor : Actor ℤ := ⟨0, ⟨some 0, none, ⟨0, 1000⟩⟩, 0⟩

/-- A tour that does have a shift-start activity. -/
def c1_tour : List (Activity ℤ) := [⟨⟨0, 0, ⟨0, 1000⟩⟩, ⟨0, 0⟩, false⟩]

/-- Constant travel duration 10; service time is the place's duration. -/
def c7_services : Services ℤ :=
  ⟨fun _ _ _ _ => 10, fun _ _ _ => 0, fun p _ => p.duration, fun _ _ => 0⟩

/-- Shift `[0, 100]`, start and end at location 0. -/
def c7_actor : Actor ℤ := ⟨0, ⟨some 0, some 0, ⟨0, 100⟩⟩, 0⟩

/-- start → job A (location 1, window `[20, 80]`, service 5) → end. -/
def c7_tour : List (Activity ℤ) :=
  [⟨⟨0, 0, ⟨0, 100⟩⟩, ⟨0, 0⟩, false⟩,
   ⟨⟨1, 5, ⟨20, 80⟩⟩, ⟨0, 0⟩, true⟩,
   ⟨⟨0, 0, ⟨0, 100⟩⟩, ⟨0, 0⟩, false⟩]

/-- The schedules the (lazily repaired) forward pass produces on `c7_tour`:
arrival(A) = 0 + 10, departure(A) = max(10, 20) + 5 = 25, arrival(end) = 35. -/
def c7_tour_expected : List (Activity ℤ) :=
  [⟨⟨0, 0, ⟨0, 100⟩⟩, ⟨0, 0⟩, false⟩,
   ⟨⟨1, 5, ⟨20, 80⟩⟩, ⟨10, 25⟩, true⟩,
   ⟨⟨0, 0, ⟨0, 100⟩⟩, ⟨35, 35⟩, false⟩]

/-- Constant travel duration 5; service time is the place's duration. -/
def c8_services : Services ℤ :=
  ⟨fun _ _ _ _ => 5, fun _ _ _ => 0, fun p _ => p.duration, fun _ _ => 0⟩

/-- Shift `[0, 500]`, start and end at location 0. -/
def c8_actor : Actor ℤ := ⟨0, ⟨some 0, some 0, ⟨0, 500⟩⟩, 0⟩

/-- start → job B (location 2, window `[10, 200]`, service 3) → end, with stale
schedules that a pass would rewrite. -/
def c8_tour : List (Activity ℤ) :=
  [⟨⟨0, 0, ⟨0, 500⟩⟩, ⟨0, 0⟩, false⟩,
   ⟨⟨2, 3, ⟨10, 200⟩⟩, ⟨7, 7⟩, true⟩,
   ⟨⟨0, 0, ⟨0, 500⟩⟩, ⟨9, 9⟩, false⟩]

/-- The tour the (lazily repaired) pass produces on `c8_tour`. -/
def c8_tour_expected : List (Activity ℤ) :=
  [⟨⟨0, 0, ⟨0, 500⟩⟩, ⟨0, 0⟩, false⟩,
   ⟨⟨2, 3, ⟨10, 200⟩⟩, ⟨5, 13⟩, true⟩,
   ⟨⟨0, 0, ⟨0, 500⟩⟩, ⟨18, 18⟩, false⟩]

/-- The state entries the (lazily repaired) pass produces on `c8_tour`. -/
def c8_states_expected : List (Option (ℤ × ℤ)) :=
  [none, some (200, 5), none]

/-- One travel unit everywhere, no transport or activity costs. -/
def c2_services : Services ℤ :=
  ⟨fun _ _ _ _ => 1, fun _ _ _ => 0, fun p _ => p.duration, fun _ _ => 0⟩

/-- Shift `[0, 100]`. -/
def c2_actor : Actor ℤ := ⟨0, ⟨some 0, some 0, ⟨0, 100⟩⟩, 0⟩

/-- prev at location 0, departing at 0. -/
def c2_prev : Activity ℤ := ⟨⟨0, 0, ⟨0, 100⟩⟩, ⟨0, 0⟩, false⟩

/-- target at location 1 with 10 units of service time. -/
def c2_target : Activity ℤ := ⟨⟨1, 10, ⟨0, 100⟩⟩, ⟨0, 0⟩, true⟩

/-- next at location 2 with window `[0, 5]`; the stored LATEST_ARRIVAL state 5
agrees with the backward-pass value for a shift ending at 100 with zero
travel/service after next. -/
def c2_next : Activity ℤ := ⟨⟨2, 0, ⟨0, 5⟩⟩, ⟨0, 0⟩, true⟩

/-- A target with no service time and a wide window, for the witness of the
amended claim. -/
def c2w_target : Activity ℤ := ⟨⟨1, 0, ⟨0, 100⟩⟩, ⟨0, 0⟩, true⟩

/-- A next with a wide window, for the witness of the amended claim. -/
def c2w_next : Activity ℤ := ⟨⟨2, 0, ⟨0, 100⟩⟩, ⟨0, 0⟩, true⟩

/-- One travel unit, no transport cost; the activity cost is the waiting time
`max(tw.start − arrival, 0)` (unit waiting rate), as in
`ActivityCost::cost` with `per_waiting_time = 1` and no service cost. -/
def c3_services : Services ℤ :=
  ⟨fun _ _ _ _ => 1, fun _ _ _ => 0, fun p _ => p.duration,
   fun p arr => max (p.time.start - arr) 0⟩

/-- Vehicle `per_waiting_time = 1`. -/
def c3_actor : Actor ℤ := ⟨0, ⟨some 0, some 0, ⟨0, 1000⟩⟩, 1⟩

/-- prev at location 0, departing at 0. -/
def c3_prev : Activity ℤ := ⟨⟨0, 0, ⟨0, 100⟩⟩, ⟨0, 0⟩, false⟩

/-- target at location 1, no service time, wide window. -/
def c3_target : Activity ℤ := ⟨⟨1, 0, ⟨0, 100⟩⟩, ⟨0, 0⟩, true⟩

/-- next at location 2 with window start 50: arriving later through `target`
saves waiting at `next`, which the claim's formula does not account for. -/
def c3_next : Activity ℤ := ⟨⟨2, 0, ⟨50, 100⟩⟩, ⟨0, 0⟩, true⟩

/-- Constant travel duration 10 — the arrival at the target (10) overshoots the
target's own window end (5). -/
def c6_services : Services ℤ :=
  ⟨fun _ _ _ _ => 10, fun _ _ _ => 0, fun p _ => p.duration, fun _ _ => 0⟩

/-- Shift `[0, 100]`. -/
def c6_actor : Actor ℤ := ⟨0, ⟨some 0, some 0, ⟨0, 100⟩⟩, 0⟩

/-- prev at location 0, departing at 0. -/
def c6_prev : Activity ℤ := ⟨⟨0, 0, ⟨0, 100⟩⟩, ⟨0, 0⟩, false⟩

/-- target at location 1 with window `[0, 5]` (open vrp: no next). -/
def c6_target : Activity ℤ := ⟨⟨1, 0, ⟨0, 5⟩⟩, ⟨0, 0⟩, true⟩

/-- Three individuals exercising eviction and re-sorting in the population. -/
def c5_individuums : List (Individuum ℤ) := [⟨5, 0, 1⟩, ⟨3, 1, 2⟩, ⟨4, 0, 1⟩]

/-- `sample = 1, threshold = 1/2`. -/
noncomputable def c4_cv : CostVariation := ⟨1, 1 / 2⟩

/-- Generation 0, no buffer yet, best fitness 4. -/
noncomputable def c4_ctx : RefinementCtx := ⟨0, none, some 4⟩

/-- A solution with one unassigned job. -/
def c9_unassigned_solution : SolomonSolution :=
  ⟨[⟨[⟨some ⟨"a"⟩⟩]⟩], [(⟨"b"⟩, 1)]⟩

/-- A fully assigned solution: one route visiting jobs a then b. -/
def c9_assigned_solution : SolomonSolution :=
  ⟨[⟨[⟨none⟩, ⟨some ⟨"a"⟩⟩, ⟨some ⟨"b"⟩⟩, ⟨none⟩]⟩], []⟩

/-! # Theorems

## `accept_route_state`: the eager-`unwrap_or` panic, and the intended pass -/

section AcceptRouteState

variable {R : Type} [LinearOrderedCommRing R]

/-- Because Rust evaluates the `panic!(OP_START_MSG)` argument of `unwrap_or`
before `unwrap_or` itself runs (timing.rs line 32), `accept_route_state` aborts
on every input, whether or not the tour has a start activity. -/
theorem accept_route_state_eq_none (sv : Services R) (actor : Actor R)
    (tour : List (Activity R)) : accept_route_state sv actor tour = none := rfl

/-- Rerunning the forward schedule pass over its own output reproduces it: the
pass reads only the immutable place data and the carried `(location, departure)`
chain, both of which it preserves. -/
theorem schedule_pass_idem (sv : Services R) (profile : Nat) :
    ∀ (loc : Nat) (dep : R) (l : List (Activity R)),
      schedule_pass sv profile loc dep (schedule_pass sv profile loc dep l) =
        schedule_pass sv profile loc dep l := by
  intro loc dep l
  induction l generalizing loc dep with
  | nil => rfl
  | cons a rest ih =>
    simp only [schedule_pass]
    exact congrArg _ (ih _ _)

/-- The backward pass produces one state entry per activity. -/
theorem latest_pass_length (sv : Services R) (profile : Nat) :
    ∀ (l : List (Activity R)) (acc : R × Nat × R),
      (latest_pass sv profile l acc).1.length = l.length := by
  intro l acc
  induction l with
  | nil => rfl
  | cons a rest ih =>
    simp only [latest_pass]
    by_cases h : a.has_job <;> simp [h, ih]

/-- Pointwise description of the backward pass (timing.rs lines 58-75), as the
specification words it: activity `i`'s entry is `none` when it has no job
(the accumulator is propagated), and otherwise stores
`LATEST_ARRIVAL = min(tw.end, T − travel(a.loc → L, T) − service)` and
`WAITING = W + max(0, tw.start − arrival)`, where `(T, L, W)` is the
accumulator produced by the suffix after `i` — starting from the initial
`(shift end, end location, 0)` and advanced at each job activity. -/
theorem latest_pass_get (sv : Services R) (profile : Nat) (acc : R × Nat × R) :
    ∀ (l : List (Activity R)) (i : Nat) (hi : i < l.length)
      (hs : i < (latest_pass sv profile l acc).1.length),
      (latest_pass sv profile l acc).1.get ⟨i, hs⟩ =
        (if (l.get ⟨i, hi⟩).has_job then
          some (min (l.get ⟨i, hi⟩).place.time.endt
              ((latest_pass sv profile (l.drop (i + 1)) acc).2.1 -
                sv.tdur profile (l.get ⟨i, hi⟩).place.location
                  (latest_pass sv profile (l.drop (i + 1)) acc).2.2.1
                  (latest_pass sv profile (l.drop (i + 1)) acc).2.1 -
                sv.adur (l.get ⟨i, hi⟩).place
                  (latest_pass sv profile (l.drop (i + 1)) acc).2.1),
            (latest_pass sv profile (l.drop (i + 1)) acc).2.2.2 +
              max ((l.get ⟨i, hi⟩).place.time.start -
                (l.get ⟨i, hi⟩).schedule.arrival) 0)
        else none) := by
  intro l
  induction l with
  | nil => intro i hi; exact absurd hi (Nat.not_lt_zero i)
  | cons a rest ih =>
    intro i hi hs
    match i with
    | 0 =>
      simp only [latest_pass, List.get, List.drop]
      by_cases h : a.has_job <;> simp [h]
    | Nat.succ j =>
      have hj : j < rest.length := Nat.lt_of_succ_lt_succ hi
      have hsj : j < (latest_pass sv profile rest acc).1.length := by
        rw [latest_pass_length]; exact hj
      have key := ih j hj hsj
      by_cases h : a.has_job = true
      · simpa [latest_pass, h] using key
      · simpa [latest_pass, h] using key

end AcceptRouteState

/-- C1: the claim says that for every route whose tour has a shift-start
activity and whose actor detail has a start location, `accept_route_state`
completes normally and the abort branch is unreachable.  The code disagrees:
`route.tour.start().unwrap_or(panic!(OP_START_MSG))` evaluates the `panic!`
argument eagerly, so the function aborts (returns no result) even on this
input that satisfies the claim's precondition. -/
theorem c1_accept_route_state_aborts :
    c1_tour.head?.isSome = true ∧ c1_actor.detail.start.isSome = true ∧
      accept_route_state c1_services c1_actor c1_tour = none :=
  ⟨rfl, rfl, rfl⟩

/-- C7: at a route satisfying the claim's setup, the compiled
`accept_route_state` aborts before storing any LATEST_ARRIVAL or WAITING state
(eager `panic!` argument, timing.rs lines 32 and 55), while the lazily repaired
body produces exactly the states the claim describes: for job activity A with
window `[20, 80]`, arrival 10 and service 5 under shift end 100,
LATEST_ARRIVAL = min(80, 100 − 10 − 5) = 80 and WAITING = max(0, 20 − 10) = 10,
with non-job activities skipped (`none` entries). -/
theorem c7_accept_route_state_aborts_before_states :
    accept_route_state c7_services c7_actor c7_tour = none ∧
      accept_route_state_lazy c7_services c7_actor c7_tour =
        some (c7_tour_expected, [none, some (80, 10), none]) := by
  exact ⟨rfl, by decide⟩

/-- C8: the claim says rerunning `accept_route_state` on a route satisfying its
precondition reproduces the same schedules and states.  The compiled function
aborts on the very first run (eager `panic!` argument), so no schedules or
states are ever produced to compare; the lazily repaired body is idempotent on
the same input, as shown by the last two conjuncts. -/
theorem c8_accept_route_state_first_run_aborts :
    accept_route_state c8_services c8_actor c8_tour = none ∧
      (accept_route_state c8_services c8_actor c8_tour).bind
        (fun r => accept_route_state c8_services c8_actor r.1) = none ∧
      accept_route_state_lazy c8_services c8_actor c8_tour =
        some (c8_tour_expected, c8_states_expected) ∧
      accept_route_state_lazy c8_services c8_actor c8_tour_expected =
        some (c8_tour_expected, c8_states_expected) := by
  refine ⟨rfl, rfl, by decide, by decide⟩

section LazyIdempotence

variable {R : Type} [LinearOrderedCommRing R]

/-- The lazily repaired `accept_route_state` is idempotent, as the
specification's law intends: a second pass over the rescheduled tour returns
the same tour and the same LATEST_ARRIVAL/WAITING states. -/
theorem accept_route_state_lazy_idem (sv : Services R) (actor : Actor R)
    (tour tour2 : List (Activity R)) (st : List (Option (R × R)))
    (h : accept_route_state_lazy sv actor tour = some (tour2, st)) :
    accept_route_state_lazy sv actor tour2 = some (tour2, st) := by
  cases tour with
  | nil =>
    simp [accept_route_state_lazy, accept_route_state_with, unwrap_or_lazy] at h
  | cons a t =>
    have hh : ∀ (u : List (Activity R)),
        accept_route_state_lazy sv actor (a :: u) =
          (unwrap_or_lazy actor.detail.endt (unwrap_or_lazy actor.detail.start none)).bind
            (fun end_loc =>
              some (a :: schedule_pass sv actor.profile a.place.location
                  a.schedule.departure u,
                (latest_pass sv actor.profile
                  (a :: schedule_pass sv actor.profile a.place.location
                    a.schedule.departure u)
                  (actor.detail.time.endt, end_loc, 0)).1)) := fun u => rfl
    cases he : unwrap_or_lazy actor.detail.endt (unwrap_or_lazy actor.detail.start none) with
    | none =>
      rw [hh t, he] at h
      exact absurd h (by simp)
    | some e =>
      rw [hh t, he, Option.some_bind] at h
      have hp := Option.some.inj h
      injection hp with h1 h2
      subst h1
      subst h2
      rw [hh _, he, Option.some_bind, schedule_pass_idem]

end LazyIdempotence

/-! ## `evaluate_activity`: the four spec checks and the `stopped` flag -/

/-- C2 counterexample: a concrete insertion between `prev` and an existing
`next` for which `evaluate_activity` reports no violation although spec check
(d) fails — the service completion at `target` (11) plus the travel to `next`
(1) exceeds LATEST_ARRIVAL(next) (5).  The code returns success before the
final check whenever `next` is present (timing.rs line 244). -/
theorem c2_success_without_check_d :
    evaluate_activity c2_services c2_actor 1 (some 5) c2_prev c2_target
        (some c2_next) = none ∧
      ¬ spec_check_d c2_services c2_actor (some 5) c2_prev c2_target c2_next := by
  decide

/-- C2 (amended): what a no-violation result actually guarantees.
When `next` exists: (a) the shift end is at or after the window starts of
`prev`, `target` and `next`; (b′) the direct arrival at `next`'s location from
`prev` does not exceed LATEST_ARRIVAL(next); `target`'s window start does not
exceed LATEST_ARRIVAL(next); and (c) the arrival at `target` does not exceed
`min(target.tw.end, LATEST_ARRIVAL(next) − travel(target→next) + service)`.
Check (d) is not performed in this case.  When `next` is absent (open vrp),
the code additionally enforces the check-(d) analogue with `target` as the
right endpoint: service completion at `target` plus the `target→target` travel
must not exceed `min(target.tw.end, shift end)`. -/
theorem c2_no_violation_checks {R : Type} [LinearOrderedCommRing R]
    (sv : Services R) (actor : Actor R) (code : Int) (latest_state : Option R)
    (prev target : Activity R) :
    (∀ n : Activity R,
      evaluate_activity sv actor code latest_state prev target (some n) = none →
        (prev.place.time.start ≤ actor.detail.time.endt ∧
          target.place.time.start ≤ actor.detail.time.endt ∧
          n.place.time.start ≤ actor.detail.time.endt) ∧
        prev.schedule.departure +
            sv.tdur actor.profile prev.place.location n.place.location
              prev.schedule.departure ≤
          latest_state.getD n.place.time.endt ∧
        target.place.time.start ≤ latest_state.getD n.place.time.endt ∧
        prev.schedule.departure +
            sv.tdur actor.profile prev.place.location target.place.location
              prev.schedule.departure ≤
          min target.place.time.endt
            (latest_state.getD n.place.time.endt -
              sv.tdur actor.profile target.place.location n.place.location
                (latest_state.getD n.place.time.endt) +
              sv.adur target.place
                (prev.schedule.departure +
                  sv.tdur actor.profile prev.place.location target.place.location
                    prev.schedule.departure))) ∧
    (evaluate_activity sv actor code latest_state prev target none = none →
        (prev.place.time.start ≤ actor.detail.time.endt ∧
          target.place.time.start ≤ actor.detail.time.endt) ∧
        (max (prev.schedule.departure +
              sv.tdur actor.profile prev.place.location target.place.location
                prev.schedule.departure) target.place.time.start +
            sv.adur target.place
              (prev.schedule.departure +
                sv.tdur actor.profile prev.place.location target.place.location
                  prev.schedule.departure)) +
          sv.tdur actor.profile target.place.location target.place.location
            (max (prev.schedule.departure +
                sv.tdur actor.profile prev.place.location target.place.location
                  prev.schedule.departure) target.place.time.start +
              sv.adur target.place
                (prev.schedule.departure +
                  sv.tdur actor.profile prev.place.location target.place.location
                    prev.schedule.departure)) ≤
          min target.place.time.endt actor.detail.time.endt) := by
  constructor
  · intro n hsucc
    simp only [evaluate_activity, evaluate_activity_tail] at hsucc
    split_ifs at hsucc with h1 h2 h3 h4 h5
    all_goals first
      | exact Option.noConfusion hsucc
      | (push_neg at h1
         exact ⟨⟨h1.1, h1.2.1, h1.2.2⟩, not_lt.mp h3, not_lt.mp h4, not_lt.mp h5⟩)
  · intro hsucc
    simp only [evaluate_activity, evaluate_activity_tail] at hsucc
    split_ifs at hsucc with h1 h2 h3 h4 h5
    all_goals first
      | exact Option.noConfusion hsucc
      | (push_neg at h1
         exact ⟨⟨h1.1, h1.2⟩, not_lt.mp h5⟩)

/-- C2 witness for the amended claim: a concrete accepted insertion with an
existing `next`, at which all the guaranteed checks are discharged by applying
the amended theorem. -/
theorem c2_no_violation_checks_witness :
    evaluate_activity c2_services c2_actor 1 none c2_prev c2w_target
        (some c2w_next) = none ∧
      c2_prev.schedule.departure +
          c2_services.tdur c2_actor.profile c2_prev.place.location
            c2w_target.place.location c2_prev.schedule.departure ≤
        min c2w_target.place.time.endt
          ((Option.none).getD c2w_next.place.time.endt -
            c2_services.tdur c2_actor.profile c2w_target.place.location
              c2w_next.place.location ((Option.none).getD c2w_next.place.time.endt) +
            c2_services.adur c2w_target.place
              (c2_prev.schedule.departure +
                c2_services.tdur c2_actor.profile c2_prev.place.location
                  c2w_target.place.location c2_prev.schedule.departure)) :=
  ⟨by decide,
    ((c2_no_violation_checks c2_services c2_actor 1 none c2_prev c2w_target).1
      c2w_next (by decide)).2.2.2⟩

/-- C6 counterexample: in the open-vrp case (`next = None`) the arrival at
`target` (10) exceeds `target`'s own latest feasible arrival
`min(target.tw.end, shift end) = 5` — a failure of `target`'s time window —
yet the code returns `stopped = true` (`self.fail()` at timing.rs line 206),
where the claim requires `stopped = false` for target-window failures.
Neither shift-end clause of the claim's `stopped = true` condition holds, and
there is no `next` whose latest arrival could have been exceeded. -/
theorem c6_stopped_true_for_target_window :
    evaluate_activity c6_services c6_actor 1 none c6_prev c6_target none =
        some ⟨1, true⟩ ∧
      ¬ (c6_actor.detail.time.endt < c6_prev.place.time.start) ∧
      ¬ (c6_actor.detail.time.endt < c6_target.place.time.start) ∧
      min c6_target.place.time.endt c6_actor.detail.time.endt <
        c6_prev.schedule.departure +
          c6_services.tdur c6_actor.profile c6_prev.place.location
            c6_target.place.location c6_prev.schedule.departure := by
  decide

/-- C6 (amended): the exact characterisation of `stopped = true`.  A violation
with `stopped = true` is returned iff the shift end precedes the window start
of `prev`, `target` or `next`, or the first arrival check fails: the direct
arrival from `prev` at the reference location (`next`'s location, bounded by
LATEST_ARRIVAL(next), when `next` exists; `target`'s location, bounded by
`min(target.tw.end, shift end)`, when it does not) exceeds that bound.  Every
later failure — in particular every failure of `target`'s own window — returns
`stopped = false`. -/
theorem c6_stopped_characterization {R : Type} [LinearOrderedCommRing R]
    (sv : Services R) (actor : Actor R) (code : Int) (latest_state : Option R)
    (prev target : Activity R) (next : Option (Activity R)) :
    (∃ v, evaluate_activity sv actor code latest_state prev target next = some v ∧
        v.stopped = true) ↔
      (actor.detail.time.endt < prev.place.time.start ∨
        actor.detail.time.endt < target.place.time.start ∨
        (∃ n, next = some n ∧ actor.detail.time.endt < n.place.time.start) ∨
        (match next with
          | some n =>
            latest_state.getD n.place.time.endt <
              prev.schedule.departure +
                sv.tdur actor.profile prev.place.location n.place.location
                  prev.schedule.departure
          | none =>
            min target.place.time.endt actor.detail.time.endt <
              prev.schedule.departure +
                sv.tdur actor.profile prev.place.location target.place.location
                  prev.schedule.departure)) := by
  cases next with
  | some n =>
    simp only [evaluate_activity, evaluate_activity_tail]
    split_ifs with h1 h2 h3 h4 h5 <;> simp_all
    all_goals tauto
  | none =>
    simp only [evaluate_activity, evaluate_activity_tail]
    split_ifs with h1 h2 h3 h4 h5 <;> simp_all
    all_goals tauto

/-- C6 witness: the `stopped = true` characterisation instantiated on the
counterexample's open-vrp input. -/
theorem c6_stopped_characterization_witness :
    (∃ v, evaluate_activity c6_services c6_actor 1 none c6_prev c6_target none =
        some v ∧ v.stopped = true) ↔
      (c6_actor.detail.time.endt < c6_prev.place.time.start ∨
        c6_actor.detail.time.endt < c6_target.place.time.start ∨
        (∃ n, (none : Option (Activity ℤ)) = some n ∧
          c6_actor.detail.time.endt < n.place.time.start) ∨
        min c6_target.place.time.endt c6_actor.detail.time.endt <
          c6_prev.schedule.departure +
            c6_services.tdur c6_actor.profile c6_prev.place.location
              c6_target.place.location c6_prev.schedule.departure) :=
  c6_stopped_characterization c6_services c6_actor 1 none c6_prev c6_target none

/-! ## `estimate_activity`: the marginal-cost formula -/

/-- C3 counterexample: a position in a route with jobs and a present `next` at
which `estimate_activity` returns −1 while the claim's formula gives 0.  The
difference is `next`'s activity cost, which the code evaluates at both the new
and the old arrival time (48 − 49 here) and the claim's formula omits. -/
theorem c3_estimate_differs_from_spec_formula :
    estimate_activity c3_services c3_actor true none c3_prev c3_target
        (some c3_next) = -1 ∧
      spec_marginal_cost c3_services c3_actor none c3_prev c3_target c3_next = 0 := by
  decide

/-- C3 (amended): the closed forms `estimate_activity` actually returns.
With jobs in the tour and a present `next`, the result is the claim's formula
*plus* the change in `next`'s activity cost between its new arrival (through
`target`) and its old arrival (directly from `prev`) — the two agree exactly
when that cost is arrival-independent.  When `next` is `None`, the right leg
runs from `target` to `target` and the new costs (transport plus both legs'
activity costs) are returned without subtracting old costs; the same
no-subtraction form is returned when the tour has no jobs, but with `next`
(not `target`) as the right endpoint when `next` exists. -/
theorem c3_estimate_closed_forms {R : Type} [LinearOrderedCommRing R]
    (sv : Services R) (actor : Actor R) (waiting_state : Option R)
    (prev target : Activity R) :
    (∀ n : Activity R,
      estimate_activity sv actor true waiting_state prev target (some n) =
        spec_marginal_cost sv actor waiting_state prev target n +
          ((analyze_route_leg sv actor target n
              (analyze_route_leg sv actor prev target prev.schedule.departure).2.2).2.1 -
            (analyze_route_leg sv actor prev n prev.schedule.departure).2.1)) ∧
    (∀ has_jobs : Bool,
      estimate_activity sv actor has_jobs waiting_state prev target none =
        (analyze_route_leg sv actor prev target prev.schedule.departure).1 +
          (analyze_route_leg sv actor target target
            (analyze_route_leg sv actor prev target prev.schedule.departure).2.2).1 +
          ((analyze_route_leg sv actor prev target prev.schedule.departure).2.1 +
            (analyze_route_leg sv actor target target
              (analyze_route_leg sv actor prev target prev.schedule.departure).2.2).2.1)) ∧
    (∀ n : Activity R,
      estimate_activity sv actor false waiting_state prev target (some n) =
        (analyze_route_leg sv actor prev target prev.schedule.departure).1 +
          (analyze_route_leg sv actor target n
            (analyze_route_leg sv actor prev target prev.schedule.departure).2.2).1 +
          ((analyze_route_leg sv actor prev target prev.schedule.departure).2.1 +
            (analyze_route_leg sv actor target n
              (analyze_route_leg sv actor prev target prev.schedule.departure).2.2).2.1)) := by
  refine ⟨fun n => ?_, fun has_jobs => ?_, fun n => ?_⟩
  · simp only [estimate_activity, spec_marginal_cost, Bool.true_eq_false, if_false]
    ring
  · simp only [estimate_activity]
  · simp [estimate_activity]

/-- C3 witness: the closed form instantiated at the counterexample's inputs. -/
theorem c3_estimate_closed_forms_witness :
    estimate_activity c3_services c3_actor true none c3_prev c3_target
        (some c3_next) =
      spec_marginal_cost c3_services c3_actor none c3_prev c3_target c3_next +
        ((analyze_route_leg c3_services c3_actor c3_target c3_next
            (analyze_route_leg c3_services c3_actor c3_prev c3_target
              c3_prev.schedule.departure).2.2).2.1 -
          (analyze_route_leg c3_services c3_actor c3_prev c3_next
            c3_prev.schedule.departure).2.1) :=
  (c3_estimate_closed_forms c3_services c3_actor none c3_prev c3_target).1 c3_next

/-! ## `Population`: comparator laws, axis bounds and the fresh individual -/

/-- The `less_costs` comparator accepts `a` before `b` iff `a.cost ≤ b.cost`. -/
theorem cmp_le_costs_iff {R : Type} [LinearOrderedCommRing R] (a b : Individuum R) :
    cmp_le cmp_costs a b ↔ a.cost ≤ b.cost := by
  unfold cmp_le cmp_costs cmp_val
  rcases lt_trichotomy a.cost b.cost with h | h | h
  · simp [h, h.le]
  · simp [h]
  · simp [h.asymm, h, not_le.mpr h]

/-- The `less_unassigned` comparator accepts `a` before `b` iff `a` has fewer
unassigned jobs, or equally many and no greater cost. -/
theorem cmp_le_unassigned_iff {R : Type} [LinearOrderedCommRing R] (a b : Individuum R) :
    cmp_le cmp_unassigned a b ↔
      (a.unassigned < b.unassigned ∨
        (a.unassigned = b.unassigned ∧ a.cost ≤ b.cost)) := by
  unfold cmp_le cmp_unassigned cmp_nat cmp_val
  rcases Nat.lt_trichotomy a.unassigned b.unassigned with h | h | h
  · simp [h, Nat.lt_asymm h]
  · rcases lt_trichotomy a.cost b.cost with hc | hc | hc
    · simp [h, hc, hc.le]
    · simp [h, hc]
    · simp [h, hc.asymm, hc, not_le.mpr hc]
  · simp [h, Nat.lt_asymm h, Nat.ne_of_lt' h]

/-- The `less_routes` comparator accepts `a` before `b` iff `a` has fewer
routes, or equally many and no greater cost. -/
theorem cmp_le_routes_iff {R : Type} [LinearOrderedCommRing R] (a b : Individuum R) :
    cmp_le cmp_routes a b ↔
      (a.routes < b.routes ∨ (a.routes = b.routes ∧ a.cost ≤ b.cost)) := by
  unfold cmp_le cmp_routes cmp_nat cmp_val
  rcases Nat.lt_trichotomy a.routes b.routes with h | h | h
  · simp [h, Nat.lt_asymm h]
  · rcases lt_trichotomy a.cost b.cost with hc | hc | hc
    · simp [h, hc, hc.le]
    · simp [h, hc]
    · simp [h, hc.asymm, hc, not_le.mpr hc]
  · simp [h, Nat.lt_asymm h, Nat.ne_of_lt' h]

/-- `cmp_le cmp_costs` is total. -/
theorem cmp_le_costs_total {R : Type} [LinearOrderedCommRing R] (a b : Individuum R) :
    cmp_le cmp_costs a b ∨ cmp_le cmp_costs b a := by
  rw [cmp_le_costs_iff, cmp_le_costs_iff]
  exact le_total a.cost b.cost

/-- `cmp_le cmp_costs` is transitive. -/
theorem cmp_le_costs_trans {R : Type} [LinearOrderedCommRing R] (a b c : Individuum R)
    (h1 : cmp_le cmp_costs a b) (h2 : cmp_le cmp_costs b c) : cmp_le cmp_costs a c := by
  rw [cmp_le_costs_iff] at *
  exact h1.trans h2

/-- `cmp_le cmp_unassigned` is total. -/
theorem cmp_le_unassigned_total {R : Type} [LinearOrderedCommRing R]
    (a b : Individuum R) : cmp_le cmp_unassigned a b ∨ cmp_le cmp_unassigned b a := by
  rw [cmp_le_unassigned_iff, cmp_le_unassigned_iff]
  rcases Nat.lt_trichotomy a.unassigned b.unassigned with h | h | h
  · exact Or.inl (Or.inl h)
  · rcases le_total a.cost b.cost with hc | hc
    · exact Or.inl (Or.inr ⟨h, hc⟩)
    · exact Or.inr (Or.inr ⟨h.symm, hc⟩)
  · exact Or.inr (Or.inl h)

/-- `cmp_le cmp_unassigned` is transitive. -/
theorem cmp_le_unassigned_trans {R : Type} [LinearOrderedCommRing R]
    (a b c : Individuum R) (h1 : cmp_le cmp_unassigned a b)
    (h2 : cmp_le cmp_unassigned b c) : cmp_le cmp_unassigned a c := by
  rw [cmp_le_unassigned_iff] at *
  rcases h1 with h1 | ⟨e1, l1⟩ <;> rcases h2 with h2 | ⟨e2, l2⟩
  · exact Or.inl (h1.trans h2)
  · exact Or.inl (e2 ▸ h1)
  · exact Or.inl (e1 ▸ h2)
  · exact Or.inr ⟨e1.trans e2, l1.trans l2⟩

/-- `cmp_le cmp_routes` is total. -/
theorem cmp_le_routes_total {R : Type} [LinearOrderedCommRing R]
    (a b : Individuum R) : cmp_le cmp_routes a b ∨ cmp_le cmp_routes b a := by
  rw [cmp_le_routes_iff, cmp_le_routes_iff]
  rcases Nat.lt_trichotomy a.routes b.routes with h | h | h
  · exact Or.inl (Or.inl h)
  · rcases le_total a.cost b.cost with hc | hc
    · exact Or.inl (Or.inr ⟨h, hc⟩)
    · exact Or.inr (Or.inr ⟨h.symm, hc⟩)
  · exact Or.inr (Or.inl h)

/-- `cmp_le cmp_routes` is transitive. -/
theorem cmp_le_routes_trans {R : Type} [LinearOrderedCommRing R]
    (a b c : Individuum R) (h1 : cmp_le cmp_routes a b)
    (h2 : cmp_le cmp_routes b c) : cmp_le cmp_routes a c := by
  rw [cmp_le_routes_iff] at *
  rcases h1 with h1 | ⟨e1, l1⟩ <;> rcases h2 with h2 | ⟨e2, l2⟩
  · exact Or.inl (h1.trans h2)
  · exact Or.inl (e2 ▸ h1)
  · exact Or.inl (e1 ▸ h2)
  · exact Or.inr ⟨e1.trans e2, l1.trans l2⟩

/-- `add_to_queue` always sorts its axis (for a total, transitive comparator). -/
theorem add_to_queue_sorted {α : Type} (cmp : α → α → Ordering)
    (htot : ∀ a b, cmp_le cmp a b ∨ cmp_le cmp b a)
    (htrans : ∀ a b c, cmp_le cmp a b → cmp_le cmp b c → cmp_le cmp a c)
    (ind : α) (batch_size : Nat) (l : List α) :
    List.Sorted (cmp_le cmp) (add_to_queue cmp ind batch_size l) := by
  unfold add_to_queue sort_by
  letI : IsTotal α (cmp_le cmp) := ⟨htot⟩
  letI : IsTrans α (cmp_le cmp) := ⟨fun a b c => htrans a b c⟩
  exact List.sorted_insertionSort _ _

/-- `add_to_queue` truncates to `batch_size − 1` and then pushes exactly one
individual. -/
theorem add_to_queue_length {α : Type} (cmp : α → α → Ordering) (ind : α)
    (batch_size : Nat) (l : List α) :
    (add_to_queue cmp ind batch_size l).length = min (batch_size - 1) l.length + 1 := by
  unfold add_to_queue sort_by
  rw [(List.perm_insertionSort _ _).length_eq]
  simp [List.length_take]

/-- The pushed individual is always a member of the sorted result. -/
theorem self_mem_add_to_queue {α : Type} (cmp : α → α → Ordering) (ind : α)
    (batch_size : Nat) (l : List α) : ind ∈ add_to_queue cmp ind batch_size l := by
  unfold add_to_queue sort_by
  rw [(List.perm_insertionSort _ _).mem_iff]
  simp

/-- With capacity 1 (the `less_unassigned` axis), the previous contents are
discarded entirely and the axis is exactly the new individual. -/
theorem add_to_queue_capacity_one {α : Type} (cmp : α → α → Ordering) (ind : α)
    (l : List α) : add_to_queue cmp ind 1 l = [ind] := by
  unfold add_to_queue sort_by
  simp [List.insertionSort, List.orderedInsert]

/-- C5: after any sequence of `Population::add` calls on a population created
with `minimize_routes` and batch size `k ≥ 2` (the `assert!(batch_size > 1)` of
`Population::new`), the axis invariant holds: `less_costs` holds at most 2
individuals when `minimize_routes` is set and at most `k` otherwise,
`less_routes` the other way round, every axis is sorted by its comparator,
each axis holds at most `k` individuals, and the total size is at most `3k`. -/
theorem c5_population_add_invariant {R : Type} [LinearOrderedCommRing R]
    (minimize_routes : Bool) (k : Nat) (inds : List (Individuum R)) (hk : 2 ≤ k) :
    population_invariant minimize_routes k
      (inds.foldl Population.add (Population.new minimize_routes k)) := by
  have hadd : ∀ (p : Population R) (ind : Individuum R),
      p.minimize_routes = minimize_routes → p.batch_size = k →
      population_invariant minimize_routes k (p.add ind) := by
    intro p ind hmr hbs
    simp only [population_invariant, Population.add, Population.size, hmr, hbs]
    refine ⟨?_, ?_,
      add_to_queue_sorted _ cmp_le_costs_total cmp_le_costs_trans _ _ _,
      add_to_queue_sorted _ cmp_le_unassigned_total cmp_le_unassigned_trans _ _ _,
      add_to_queue_sorted _ cmp_le_routes_total cmp_le_routes_trans _ _ _,
      ?_, ?_, ?_, ?_⟩
    all_goals simp only [add_to_queue_length]
    all_goals cases minimize_routes
    all_goals try simp
    all_goals omega
  have hnew : population_invariant minimize_routes k
      (Population.new (R := R) minimize_routes k) := by
    simp only [population_invariant, Population.new, Population.size]
    exact ⟨Nat.zero_le _, Nat.zero_le _, List.sorted_nil, List.sorted_nil,
      List.sorted_nil, Nat.zero_le _, Nat.zero_le _, Nat.zero_le _, Nat.zero_le _⟩
  have hmain : ∀ (l : List (Individuum R)) (p : Population R),
      p.minimize_routes = minimize_routes → p.batch_size = k →
      population_invariant minimize_routes k p →
      population_invariant minimize_routes k (l.foldl Population.add p) := by
    intro l
    induction l with
    | nil => intro p _ _ hp; exact hp
    | cons a t ih =>
      intro p hmr hbs _
      exact ih (p.add a) hmr hbs (hadd p a hmr hbs)
  exact hmain inds _ rfl rfl hnew

/-- C5 witness: the invariant instantiated at batch size 2, `minimize_routes`
off, and a concrete add sequence that evicts an individual. -/
theorem c5_population_add_invariant_witness :
    2 ≤ 2 ∧ population_invariant false 2
      (c5_individuums.foldl Population.add (Population.new false 2)) :=
  ⟨by decide, c5_population_add_invariant false 2 c5_individuums (by decide)⟩

/-- C10: immediately after every `Population::add`, the added individual is
present in each of the three axes — each axis is truncated to capacity − 1
*before* the push, so the newcomer survives even when it compares worse than
everything evicted — and the `less_unassigned` axis (capacity 1) is exactly
the most recent individual, discarding any previously stored one regardless of
its unassigned count. -/
theorem c10_added_individuum_present {R : Type} [LinearOrderedCommRing R]
    (p : Population R) (ind : Individuum R) :
    ind ∈ (p.add ind).less_costs ∧ ind ∈ (p.add ind).less_unassigned ∧
      ind ∈ (p.add ind).less_routes ∧ (p.add ind).less_unassigned = [ind] := by
  have h1 : ind ∈ (p.add ind).less_costs := by
    show ind ∈ add_to_queue cmp_costs ind
      (if p.minimize_routes then 2 else p.batch_size) p.less_costs
    exact self_mem_add_to_queue _ _ _ _
  have h3 : ind ∈ (p.add ind).less_routes := by
    show ind ∈ add_to_queue cmp_routes ind
      (if p.minimize_routes then p.batch_size else 2) p.less_routes
    exact self_mem_add_to_queue _ _ _ _
  have h4 : (p.add ind).less_unassigned = [ind] := by
    show add_to_queue cmp_unassigned ind 1 p.less_unassigned = [ind]
    exact add_to_queue_capacity_one _ _ _
  exact ⟨h1, by rw [h4]; exact List.mem_singleton.mpr rfl, h3, h4⟩

/-- C10 witness: presence of the newcomer after a concrete add on a non-empty
population. -/
theorem c10_added_individuum_present_witness :
    (⟨3, 1, 1⟩ : Individuum ℤ) ∈
        ((Population.new (R := ℤ) false 2).add ⟨1, 0, 1⟩ |>.add ⟨3, 1, 1⟩).less_costs ∧
      (⟨3, 1, 1⟩ : Individuum ℤ) ∈
        ((Population.new (R := ℤ) false 2).add ⟨1, 0, 1⟩ |>.add ⟨3, 1, 1⟩).less_unassigned ∧
      (⟨3, 1, 1⟩ : Individuum ℤ) ∈
        ((Population.new (R := ℤ) false 2).add ⟨1, 0, 1⟩ |>.add ⟨3, 1, 1⟩).less_routes ∧
      ((Population.new (R := ℤ) false 2).add ⟨1, 0, 1⟩ |>.add ⟨3, 1, 1⟩).less_unassigned =
        [⟨3, 1, 1⟩] :=
  c10_added_individuum_present ((Population.new (R := ℤ) false 2).add ⟨1, 0, 1⟩) ⟨3, 1, 1⟩

/-! ## `CostVariation::is_termination` -/

/-- C4: `is_termination` returns `true` iff the population has a best
individual, the generation is at least `sample − 1`, and the coefficient of
variation of the buffer contents — the last `sample` best fitnesses when the
check has run every generation — is below the threshold; the best fitness is
stored in the ring buffer at index `generation % sample` (a valid index, and
the buffer keeps length `sample` when freshly created). -/
theorem c4_cost_variation_iff (cv : CostVariation) (ctx : RefinementCtx)
    (h : 0 < cv.sample) :
    ((is_termination cv ctx).1 = true ↔
      ∃ cost, ctx.best_fitness = some cost ∧
        cv.sample - 1 ≤ ctx.generation ∧
        get_cv ((ctx.coeff_var.getD (List.replicate cv.sample 0)).set
          (ctx.generation % cv.sample) cost) < cv.threshold) ∧
    (∀ cost, ctx.best_fitness = some cost →
      (is_termination cv ctx).2.coeff_var =
        some ((ctx.coeff_var.getD (List.replicate cv.sample 0)).set
          (ctx.generation % cv.sample) cost)) ∧
    (∀ cost, ctx.best_fitness = some cost → ctx.coeff_var = none →
      ((is_termination cv ctx).2.coeff_var.getD []).length = cv.sample) ∧
    ctx.generation % cv.sample < cv.sample := by
  refine ⟨?_, ?_, ?_, Nat.mod_lt _ h⟩
  · rcases hb : ctx.best_fitness with _ | c
    · simp [is_termination, hb]
    · simp [is_termination, update_and_check, hb]
  · intro cost hb
    simp [is_termination, update_and_check, hb]
  · intro cost hb hnone
    simp [is_termination, update_and_check, hb, hnone]

/-- C4 witness: sample 1, threshold 1/2, generation 0, best fitness 4. -/
theorem c4_cost_variation_iff_witness :
    0 < c4_cv.sample ∧
      ((is_termination c4_cv c4_ctx).1 = true ↔
        ∃ cost, c4_ctx.best_fitness = some cost ∧
          c4_cv.sample - 1 ≤ c4_ctx.generation ∧
          get_cv ((c4_ctx.coeff_var.getD (List.replicate c4_cv.sample 0)).set
            (c4_ctx.generation % c4_cv.sample) cost) < c4_cv.threshold) :=
  ⟨Nat.one_pos, (c4_cost_variation_iff c4_cv c4_ctx Nat.one_pos).1⟩

/-- On a flat sample (every stored fitness equal), the coefficient of
variation is 0 and the termination criterion fires as soon as
`generation ≥ sample − 1`: a concrete demonstration that the criterion's
true-branch is reachable. -/
theorem cost_variation_fires_on_flat_sample :
    (is_termination c4_cv c4_ctx).1 = true := by
  have hcv : get_cv [4] < ((2 : ℝ))⁻¹ := by
    rw [show get_cv [4] = 0 by simp [get_cv]]
    norm_num
  simp [is_termination, update_and_check, c4_cv, c4_ctx, hcv]

/-! ## `write_solomon_solution` -/

/-- C9: when at least one job is unassigned, the Solomon writer returns the
descriptive error and the output stream is untouched (the check precedes every
write); when no job is unassigned it returns `Ok` having appended the header
and one line per route. -/
theorem c9_solomon_unassigned_error (solution : SolomonSolution)
    (writer : List String) :
    (solution.unassigned ≠ [] →
      write_solomon_solution solution writer =
        (Except.error "Cannot write solomon solution with unassigned jobs.",
          writer)) ∧
    (solution.unassigned = [] →
      write_solomon_solution solution writer =
        (Except.ok (),
          writer ++ ["Solution\n"] ++
            (solution.routes.zip (List.range' 1 solution.routes.length)).map
              (fun ri => solomon_route_line ri.2 ri.1))) := by
  constructor
  · intro h
    cases hu : solution.unassigned with
    | nil => exact absurd hu h
    | cons a t => simp [write_solomon_solution, hu]
  · intro h
    simp [write_solomon_solution, h]

/-- C9 witness: a solution with an unassigned job yields the error with nothing
written; a fully assigned one yields `Ok` with header and route lines. -/
theorem c9_solomon_unassigned_error_witness :
    write_solomon_solution c9_unassigned_solution [] =
        (Except.error "Cannot write solomon solution with unassigned jobs.",
          []) ∧
      write_solomon_solution c9_assigned_solution [] =
        (Except.ok (), ["Solution\n", "Route 1: a b\n"]) :=
  ⟨(c9_solomon_unassigned_error c9_unassigned_solution []).1 (by decide),
    by
      have h := (c9_solomon_unassigned_error c9_assigned_solution []).2 rfl
      rw [h]
      rfl⟩

end Vrp
